import Mathlib

/-
Verification of the DLIR registration module (src/MSIregNN/DLIR/DLIR.py).

The file embeds the module at two complementary levels, both translated
directly from the Python source:

* a shape-level semantics over `Nat` that tracks tensor dimensions and the
  shape errors TensorFlow raises (convolution geometry, channel mismatch,
  matmul dimension mismatch, reshape element-count mismatch); and
* a value-level semantics over `ℝ` in which a rank-2 tensor is a function
  `ℕ → ℕ → ℝ` and a rank-4 tensor is `ℕ → ℕ → ℕ → ℕ → ℝ` (indices outside
  the tracked shape carry junk values that no theorem depends on).

Weight initialisers that draw from TensorFlow's ambient random source are
modelled by passing the drawn sample in as an explicit argument.
-/

namespace DLIR

/-! ### Shape-level semantics -/

/-- Output spatial dimension of a `Conv2D` with square kernel `k`, stride 1 and
no (valid) padding: `n - k + 1`; TensorFlow raises a negative-dimension error
when the input is smaller than the kernel. -/
def convOutDim (k n : ℕ) : Option ℕ :=
  if k ≤ n then some (n - k + 1) else none

/-- Output spatial dimension of a `MaxPooling2D` with pool size 2 and stride 2
(valid padding): `⌊n / 2⌋`; a zero-sized output is a TensorFlow error. -/
def poolOutDim (n : ℕ) : Option ℕ :=
  if 2 ≤ n then some (n / 2) else none

/-- Spatial output dimension of `LocNet` along one axis: Conv2D(kernel 7) →
MaxPool(2,2) → Conv2D(kernel 5) → MaxPool(2,2), all valid padding. -/
def locNetOutDim (n : ℕ) : Option ℕ := do
  let a ← convOutDim 7 n
  let b ← poolOutDim a
  let c ← convOutDim 5 b
  poolOutDim c

/-- `numpy.squeeze` on a shape: removes every axis of extent 1. -/
def squeezeShape (dims : List ℕ) : List ℕ :=
  dims.filter (fun d => d != 1)

/-- The construction-time data of a `TransformationRegressor` that matter for
shape reasoning: `linear2` has `theta_units` output units, and `linear1`
multiplies the input against a `(input_dim, theta_units*5)` weight matrix. -/
structure TRShape where
  theta_units : ℕ
  input_dim : ℕ
deriving DecidableEq, Repr

/-- Shape-level state of a constructed `BSplineRegistration` model. -/
structure BSplineModel where
  B : ℕ
  img_res : ℕ × ℕ
  grid_res : ℕ × ℕ
  transformer_regressor : TRShape
deriving DecidableEq, Repr

/-- `BSplineRegistration.__init__`: probes `LocNet` on a `(1, H, W, 1)` array
of ones, reads the probe's `squeeze()`-ed shape, takes its first two entries as
the grid resolution, builds the regressor with `theta_units = g0*g1*2` and
`input_dim = factor`, and only afterwards rescales `grid_res` by
`np.sqrt(factor).astype(np.int32)` (truncated square root). Construction fails
(`none`) when the probe pass fails or the squeezed shape has fewer than two
entries. -/
def bsplineConstruct (img_res : ℕ × ℕ) (factor : ℕ) : Option BSplineModel :=
  match locNetOutDim img_res.1, locNetOutDim img_res.2 with
  | some hp, some wp =>
    match squeezeShape [1, hp, wp, 10] with
    | g0 :: g1 :: _ =>
        let s := Nat.sqrt factor
        some { B := 1
               img_res := img_res
               grid_res := (g0 * s, g1 * s)
               transformer_regressor := { theta_units := g0 * g1 * 2, input_dim := factor } }
    | _ => none
  | _, _ => none

/-- The classes of shape errors TensorFlow raises along the forward pass. -/
inductive ShapeErr where
  | convGeom
  | chanMismatch
  | matmulMismatch
  | reshapeMismatch
  | dtypeMismatch
deriving DecidableEq, Repr

/-- Shape-level semantics of `BSplineRegistration.call` on a moving image of
shape `(n, H, W, c)`; returns the shape of the `theta` it would produce.
`loc_net` was built with one input channel by the construction-time probe, so
any other channel count is a mismatch. After `LocNet` the feature map
`(n, h', w', 10)` is transposed to `(n, 10, h', w')` and fed to the regressor
un-flattened: the batched matmul against the `(input_dim, theta_units*5)`
weight needs `w' = input_dim`, producing `(n, 10, h', theta_units)` after
`linear2`; `tf.reshape` to `(B, 2, grid_res.1, grid_res.2)` needs the element
counts to agree. -/
def bsplineCallShape (m : BSplineModel) (n H W c : ℕ) : Except ShapeErr (List ℕ) :=
  if c != 1 then .error .chanMismatch
  else match locNetOutDim H, locNetOutDim W with
  | some hp, some wp =>
      if wp != m.transformer_regressor.input_dim then .error .matmulMismatch
      else if n * 10 * hp * m.transformer_regressor.theta_units
              != m.B * 2 * m.grid_res.1 * m.grid_res.2 then .error .reshapeMismatch
      else .ok [m.B, 2, m.grid_res.1, m.grid_res.2]
  | _, _ => .error .convGeom

/-- `DLIR.__init__` grid arithmetic: `gx = ceil(W/sx)`, `gy = ceil(H/sy)`,
`nx = gx+3`, `ny = gy+3`, `theta_units = 2*ny*nx`. The Python floats are
modelled exactly over `ℚ`. -/
def dlirThetaUnits (img_res grid_res : ℕ × ℕ) : ℕ :=
  let sx := grid_res.1
  let sy := grid_res.2
  let H := img_res.1
  let W := img_res.2
  let gx : ℤ := ⌈(W : ℚ) / (sx : ℚ)⌉
  let gy : ℤ := ⌈(H : ℚ) / (sy : ℚ)⌉
  let nx : ℕ := (gx + 3).toNat
  let ny : ℕ := (gy + 3).toNat
  2 * ny * nx

/-! ### Value-level semantics -/

/-- Rank-2 tensor (matrix) data. -/
abbrev T2 : Type := ℕ → ℕ → ℝ

/-- Rank-4 tensor data, indexed `(batch, row, col, channel)`. -/
abbrev T4 : Type := ℕ → ℕ → ℕ → ℕ → ℝ

noncomputable section

/-- `tf.matmul` of a `(batch, d)` input against a `(d, units)` weight matrix. -/
def matmulT2 (d : ℕ) (x w : T2) : T2 :=
  fun i j => ∑ k ∈ Finset.range d, x i k * w k j

/-- Broadcast addition of a bias row vector to every row of a matrix. -/
def addBias (x : T2) (b : ℕ → ℝ) : T2 :=
  fun i j => x i j + b j

/-- `tf.nn.tanh`, applied elementwise. -/
def tanhMap (x : T2) : T2 :=
  fun i j => Real.tanh (x i j)

/-- The `Linear` layer: weight matrix `w` of shape `(inputDim, units)`, bias
vector `b` of length `units`, each carrying its `tf.Variable` trainable flag. -/
structure Linear where
  units : ℕ
  inputDim : ℕ
  w : T2
  b : ℕ → ℝ
  wTrainable : Bool
  bTrainable : Bool

/-- `Linear.__init__`. With `is_transformer_regressor = True` both the weight
matrix and the bias start as zeros; otherwise the weight matrix takes the
sample `wInit` drawn from `tf.random_normal_initializer()` (the draw from the
ambient random source is passed in explicitly) and the bias starts as zeros.
All variables are trainable (`tf.Variable` defaults to `trainable=True`; the
regressor-branch bias sets it explicitly). -/
def mkLinear (units inputDim : ℕ) (is_transformer_regressor : Bool) (wInit : T2) : Linear :=
  if is_transformer_regressor then
    { units := units, inputDim := inputDim
      w := fun _ _ => 0, b := fun _ => 0
      wTrainable := true, bTrainable := true }
  else
    { units := units, inputDim := inputDim
      w := wInit, b := fun _ => 0
      wTrainable := true, bTrainable := true }

/-- `Linear.call`: `tf.matmul(inputs, self.w) + self.b`. -/
def linearCall (L : Linear) (inputs : T2) : T2 :=
  addBias (matmulT2 L.inputDim inputs L.w) L.b

/-- `TransformationRegressor`: two `Linear` layers. -/
structure TransformationRegressor where
  linear1 : Linear
  linear2 : Linear

/-- `TransformationRegressor.__init__`: `linear1` has `theta_units*5` units on
`input_dim` inputs (randomly initialised with the drawn sample `wInit`);
`linear2` has `theta_units` units on `theta_units*5` inputs with the
zero-initialising `is_transformer_regressor=True` mode. -/
def mkTransformationRegressor (theta_units input_dim : ℕ) (wInit : T2) :
    TransformationRegressor :=
  { linear1 := mkLinear (theta_units * 5) input_dim false wInit
    linear2 := mkLinear theta_units (theta_units * 5) true (fun _ _ => 0) }

/-- `TransformationRegressor.call`: `tanh(linear2(tanh(linear1(inputs))))`. -/
def transformationRegressorCall (R : TransformationRegressor) (inputs : T2) : T2 :=
  tanhMap (linearCall R.linear2 (tanhMap (linearCall R.linear1 inputs)))

/-- ReLU activation. -/
def relu (x : ℝ) : ℝ := max x 0

/-- Valid-padding stride-1 `Conv2D` with square kernel `k`, `cin` input
channels and ReLU activation; `w` is indexed `(di, dj, cin, cout)`. -/
def conv2dRelu (k cin : ℕ) (w : T4) (b : ℕ → ℝ) (x : T4) : T4 :=
  fun n i j o =>
    relu ((∑ di ∈ Finset.range k, ∑ dj ∈ Finset.range k, ∑ ci ∈ Finset.range cin,
      x n (i + di) (j + dj) ci * w di dj ci o) + b o)

/-- `MaxPooling2D(pool_size=(2,2), strides=2)`. -/
def maxPool2x2 (x : T4) : T4 :=
  fun n i j c =>
    max (max (x n (2 * i) (2 * j) c) (x n (2 * i) (2 * j + 1) c))
        (max (x n (2 * i + 1) (2 * j) c) (x n (2 * i + 1) (2 * j + 1) c))

/-- Trainable state of `LocNet`: the two convolution kernels and biases
(`conv1`: 8 filters of size 7×7 over `cin` channels; `conv2`: 10 filters of
size 5×5 over 8 channels). -/
structure LocNetWeights where
  cin : ℕ
  w1 : T4
  b1 : ℕ → ℝ
  w2 : T4
  b2 : ℕ → ℝ

/-- `LocNet.call`: conv1 → maxpool1 → conv2 → maxpool2. -/
def locNetCall (Wt : LocNetWeights) (x : T4) : T4 :=
  maxPool2x2 (conv2dRelu 5 8 Wt.w2 Wt.b2 (maxPool2x2 (conv2dRelu 7 Wt.cin Wt.w1 Wt.b1 x)))

/-- Numeric dtype tag of a TensorFlow tensor. -/
inductive DType where
  | float32
  | float64
deriving DecidableEq, Repr

/-- A TensorFlow tensor: dtype tag, tracked shape `(n, h, w, c)`, and data.
The ideal `ℝ` data is unchanged by a dtype cast (floating-point rounding is
outside the model). -/
structure TfTensor where
  dtype : DType
  n : ℕ
  h : ℕ
  w : ℕ
  c : ℕ
  data : T4

/-- `tf.cast(inputs, "float32")`. -/
def castTo32 (t : TfTensor) : TfTensor :=
  { t with dtype := DType.float32 }

/-- Running `LocNet` on a tensor. Modelled from the spec: the pipeline expects
the model's floating precision (float32), and an input of another dtype
surfaces a PrecisionMismatchError; a channel count other than the one the
layer was built with, or spatial dimensions too small for the two
convolution/pool stages, surface shape errors. On success the output is the
`(n, h', w', 10)` feature map computed by `locNetCall`. -/
def locNetApply (Wt : LocNetWeights) (t : TfTensor) : Except ShapeErr TfTensor :=
  if t.dtype ≠ DType.float32 then .error .dtypeMismatch
  else if t.c ≠ Wt.cin then .error .chanMismatch
  else match locNetOutDim t.h, locNetOutDim t.w with
  | some hp, some wp =>
      .ok { dtype := DType.float32, n := t.n, h := hp, w := wp, c := 10
            data := locNetCall Wt t.data }
  | _, _ => .error .convGeom

/-- `Flatten` on a rank-4 tensor of tracked shape `(n, h, w, c)`: row-major
collapse of the last three axes. -/
def flattenData (_h w c : ℕ) (x : T4) : T2 :=
  fun n p => x n (p / (w * c)) ((p / c) % w) (p % c)

/-- The `DLIR` model state after `__init__`. The external
`SpatialTransformerBspline` is out of scope and appears as an opaque function
field taking the input image, the regressed `theta` and the spline degree. -/
structure DLIRModel where
  drate : ℝ
  grid_res : ℕ × ℕ
  img_res : ℕ × ℕ
  B : ℕ
  loc_net : LocNetWeights
  transformer_regressor : TransformationRegressor
  transformer : TfTensor → T2 → ℕ → TfTensor

/-- `DLIR.__init__`: stores the configuration, sets `B = 1`, and builds the
`TransformationRegressor` with `theta_units = dlirThetaUnits img_res grid_res`
(that is, `2*ny*nx` for the +3-padded ceil-divided grid) on `input_dim`
inputs. -/
def dlirConstruct (drate : ℝ) (grid_res img_res : ℕ × ℕ) (input_dim : ℕ)
    (locW : LocNetWeights) (wInit : T2)
    (stn : TfTensor → T2 → ℕ → TfTensor) : DLIRModel :=
  { drate := drate, grid_res := grid_res, img_res := img_res, B := 1
    loc_net := locW
    transformer_regressor :=
      mkTransformationRegressor (dlirThetaUnits img_res grid_res) input_dim wInit
    transformer := stn }

/-- `DLIR.call` (training path): LocNet → flatten → dropout → regressor →
transformer, with no dtype cast. The stochastic dropout mask application is
passed in as the function `dropout`. -/
def dlirCall (m : DLIRModel) (dropout : T2 → T2) (inputs : TfTensor) :
    Except ShapeErr TfTensor :=
  match locNetApply m.loc_net inputs with
  | .error e => .error e
  | .ok xs =>
      let flat := flattenData xs.h xs.w xs.c xs.data
      let dropped := dropout flat
      let theta := transformationRegressorCall m.transformer_regressor dropped
      .ok (m.transformer inputs theta m.B)

/-- `DLIR.transform` (inference path): casts the input to float32 first, then
LocNet → flatten → regressor → transformer, with no dropout. -/
def dlirTransform (m : DLIRModel) (inputs : TfTensor) : Except ShapeErr TfTensor :=
  let inputs := castTo32 inputs
  match locNetApply m.loc_net inputs with
  | .error e => .error e
  | .ok xs =>
      let flat := flattenData xs.h xs.w xs.c xs.data
      let theta := transformationRegressorCall m.transformer_regressor flat
      .ok (m.transformer inputs theta m.B)

/-- A concrete all-zero `LocNet` weight assignment (one input channel), used
to instantiate universally quantified theorems at a specific model. -/
def witnessLocW : LocNetWeights :=
  { cin := 1, w1 := fun _ _ _ _ => 0, b1 := fun _ => 0
    w2 := fun _ _ _ _ => 0, b2 := fun _ => 0 }

/-- A concrete constant image, used to instantiate theorems. -/
def witnessImage : T4 := fun _ _ _ _ => 1

end

/-- The shape-level model `bsplineConstruct (54, 414) 100` produces: probed
feature dims `(10, 100)`, regressor width `10*100*2 = 2000` on `input_dim`
100, grid upscaled by `√100 = 10` to `(100, 1000)`. -/
def probeModel : BSplineModel :=
  { B := 1, img_res := (54, 414), grid_res := (100, 1000)
    transformer_regressor := { theta_units := 2000, input_dim := 100 } }

/-- The shape-level model `bsplineConstruct (64, 64) 4` produces: probed
feature dims `(12, 12)`, regressor width `288`, grid `(24, 24)`. -/
def scaledModel : BSplineModel :=
  { B := 1, img_res := (64, 64), grid_res := (24, 24)
    transformer_regressor := { theta_units := 288, input_dim := 4 } }

/-- The shape-level model `bsplineConstruct (64, 64) 1` produces: probed
feature dims `(12, 12)`, regressor width `288`, grid `(12, 12)`. -/
def idFactorModel : BSplineModel :=
  { B := 1, img_res := (64, 64), grid_res := (12, 12)
    transformer_regressor := { theta_units := 288, input_dim := 1 } }

end DLIR

namespace DLIR

/-! ### Helper lemmas -/

theorem sqrt_four_eq : Nat.sqrt 4 = 2 :=
  (Nat.eq_sqrt.mpr (by decide)).symm

theorem sqrt_hundred_eq : Nat.sqrt 100 = 10 :=
  (Nat.eq_sqrt.mpr (by decide)).symm

theorem ceil_256_50 : ⌈((256 : ℕ) : ℚ) / ((50 : ℕ) : ℚ)⌉ = (6 : ℤ) := by
  rw [Int.ceil_eq_iff]
  norm_num

/-- Characterisation of a successful `BSplineRegistration` construction. -/
theorem bsplineConstruct_some (r : ℕ × ℕ) (f : ℕ) (m : BSplineModel)
    (h : bsplineConstruct r f = some m) :
    ∃ hp wp g0 g1 rest,
      locNetOutDim r.1 = some hp ∧ locNetOutDim r.2 = some wp ∧
      squeezeShape [1, hp, wp, 10] = g0 :: g1 :: rest ∧
      m = { B := 1, img_res := r
            grid_res := (g0 * Nat.sqrt f, g1 * Nat.sqrt f)
            transformer_regressor := { theta_units := g0 * g1 * 2, input_dim := f } } := by
  unfold bsplineConstruct at h
  cases e1 : locNetOutDim r.1 with
  | none => simp [e1] at h
  | some hp =>
    cases e2 : locNetOutDim r.2 with
    | none => simp [e1, e2] at h
    | some wp =>
      simp only [e1, e2] at h
      cases e3 : squeezeShape [1, hp, wp, 10] with
      | nil => simp [e3] at h
      | cons g0 tl =>
        cases tl with
        | nil => simp [e3] at h
        | cons g1 rest =>
          simp only [e3, Option.some_inj] at h
          exact ⟨hp, wp, g0, g1, rest, rfl, rfl, e3, h.symm⟩

theorem squeezeShape_of_ne_one (hp wp : ℕ) (h1 : hp ≠ 1) (h2 : wp ≠ 1) :
    squeezeShape [1, hp, wp, 10] = [hp, wp, 10] := by
  have e1 : (hp != 1) = true := bne_iff_ne.mpr h1
  have e2 : (wp != 1) = true := bne_iff_ne.mpr h2
  simp [squeezeShape, List.filter, e1, e2]

theorem construct_64_64_4 : bsplineConstruct (64, 64) 4 = some scaledModel := by
  have h12 : locNetOutDim 64 = some 12 := by decide
  unfold bsplineConstruct
  simp only [h12, squeezeShape_of_ne_one 12 12 (by decide) (by decide), sqrt_four_eq]
  rfl

theorem construct_64_64_1 : bsplineConstruct (64, 64) 1 = some idFactorModel := by
  have h12 : locNetOutDim 64 = some 12 := by decide
  unfold bsplineConstruct
  simp only [h12, squeezeShape_of_ne_one 12 12 (by decide) (by decide), Nat.sqrt_one]
  rfl

theorem construct_54_414_100 : bsplineConstruct (54, 414) 100 = some probeModel := by
  have h10 : locNetOutDim 54 = some 10 := by decide
  have h100 : locNetOutDim 414 = some 100 := by decide
  unfold bsplineConstruct
  simp only [h10, h100, squeezeShape_of_ne_one 10 100 (by decide) (by decide), sqrt_hundred_eq]
  rfl

theorem construct_18_64_1 :
    bsplineConstruct (18, 64) 1
      = some { B := 1, img_res := (18, 64), grid_res := (12, 10)
               transformer_regressor := { theta_units := 240, input_dim := 1 } } := by
  have h1 : locNetOutDim 18 = some 1 := by decide
  have h12 : locNetOutDim 64 = some 12 := by decide
  have hsq : squeezeShape [1, 1, 12, 10] = [12, 10] := by decide
  unfold bsplineConstruct
  simp only [h1, h12, hsq, Nat.sqrt_one]

/-- The `theta` shape a successful `bsplineCallShape` reports. -/
theorem bsplineCallShape_ok (m : BSplineModel) (n H W c : ℕ) (ts : List ℕ)
    (h : bsplineCallShape m n H W c = .ok ts) :
    ts = [m.B, 2, m.grid_res.1, m.grid_res.2] := by
  unfold bsplineCallShape at h
  split at h
  · cases h
  · split at h
    · split at h
      · cases h
      · split at h
        · cases h
        · cases h
          rfl
    · cases h

/-- A successful `bsplineCallShape` saw a feature-map width equal to the
regressor's `input_dim`. -/
theorem bsplineCallShape_ok_width (m : BSplineModel) (n H W c : ℕ) (ts : List ℕ)
    (h : bsplineCallShape m n H W c = .ok ts) :
    locNetOutDim W = some m.transformer_regressor.input_dim := by
  unfold bsplineCallShape at h
  split at h
  · cases h
  · rename_i hmatch
    split at h
    · rename_i hp wp e1 e2
      split at h
      · cases h
      · rename_i hwp
        rw [e2]
        simp at hwp
        rw [hwp]
    · cases h

theorem tanh_abs_lt_one (y : ℝ) : |Real.tanh y| < 1 := by
  rw [Real.tanh_eq_sinh_div_cosh, abs_div, abs_of_pos (Real.cosh_pos y),
    div_lt_one (Real.cosh_pos y), abs_lt]
  constructor
  · have h : Real.sinh (-y) < Real.cosh (-y) := Real.sinh_lt_cosh (-y)
    rw [Real.sinh_neg, Real.cosh_neg] at h
    linarith
  · exact Real.sinh_lt_cosh y

/-! ### Claim theorems -/

/-- C1 (counterexample): at `img_res = (64, 64)`, `factor = 4`, the
`BSplineRegistration` constructor builds a regressor whose output width is
`288`, while the control grid handed to the external transformer has
`2·gridH·gridW = 2·24·24 = 1152` parameters — the claimed invariant fails. -/
theorem C1_counterexample :
    (bsplineConstruct (64, 64) 4).map
        (fun m => (m.transformer_regressor.theta_units, 2 * m.grid_res.1 * m.grid_res.2))
      = some (288, 1152)
    ∧ (288 : ℕ) ≠ 1152 := by
  rw [construct_64_64_4]
  exact ⟨rfl, by decide⟩

/-- C1 (amended): for every `BSplineRegistration` construction that succeeds,
`2·gridH·gridW = theta_units · ⌊√factor⌋²` — the regressor width is computed
from the pre-upsampling grid, so it equals `2·gridH·gridW` exactly when the
truncated square root of the scale factor is `1`. -/
theorem C1_amended_invariant (img_res : ℕ × ℕ) (factor : ℕ) (m : BSplineModel)
    (hc : bsplineConstruct img_res factor = some m) :
    2 * m.grid_res.1 * m.grid_res.2
        = m.transformer_regressor.theta_units * (Nat.sqrt factor * Nat.sqrt factor)
    ∧ (Nat.sqrt factor = 1 →
        m.transformer_regressor.theta_units = 2 * m.grid_res.1 * m.grid_res.2) := by
  obtain ⟨hp, wp, g0, g1, rest, e1, e2, e3, hm⟩ := bsplineConstruct_some img_res factor m hc
  subst hm
  constructor
  · show 2 * (g0 * Nat.sqrt factor) * (g1 * Nat.sqrt factor)
        = g0 * g1 * 2 * (Nat.sqrt factor * Nat.sqrt factor)
    ring
  · intro hs
    show g0 * g1 * 2 = 2 * (g0 * Nat.sqrt factor) * (g1 * Nat.sqrt factor)
    rw [hs]
    ring

/-- C1 (witness): at `img_res = (64, 64)`, `factor = 1` the truncated square
root is `1` and the regressor width `288` equals `2·12·12`. -/
theorem C1_amended_witness :
    Nat.sqrt 1 = 1
    ∧ idFactorModel.transformer_regressor.theta_units
        = 2 * idFactorModel.grid_res.1 * idFactorModel.grid_res.2 :=
  ⟨Nat.sqrt_one, (C1_amended_invariant (64, 64) 1 idFactorModel construct_64_64_1).2 Nat.sqrt_one⟩

/-- C2: `DLIR.__init__` builds its `TransformationRegressor` with output width
`2·(ceil(H/sy)+3)·(ceil(W/sx)+3)`, and the scenario `H = W = 256`,
`sx = sy = 50` yields a total parameter count of `162`. -/
theorem C2_dlir_fixed_grid (H W sx sy input_dim : ℕ) (drate : ℝ)
    (locW : LocNetWeights) (wInit : T2) (stn : TfTensor → T2 → ℕ → TfTensor)
    (_hsx : 0 < sx) (_hsy : 0 < sy) :
    (dlirConstruct drate (sx, sy) (H, W) input_dim locW wInit
        stn).transformer_regressor.linear2.units
      = 2 * (⌈(H : ℚ) / (sy : ℚ)⌉ + 3).toNat * (⌈(W : ℚ) / (sx : ℚ)⌉ + 3).toNat
    ∧ dlirThetaUnits (256, 256) (50, 50) = 162 := by
  constructor
  · rfl
  · simp only [dlirThetaUnits]
    rw [ceil_256_50]
    decide

/-- C2 (witness): the scenario instance `H = W = 256`, `sx = sy = 50`,
`input_dim = 512`. -/
theorem C2_dlir_fixed_grid_witness :
    0 < 50
    ∧ (dlirConstruct 0 (50, 50) (256, 256) 512 witnessLocW (fun _ _ => 0)
        (fun t _ _ => t)).transformer_regressor.linear2.units
      = 2 * (⌈(256 : ℚ) / (50 : ℚ)⌉ + 3).toNat * (⌈(256 : ℚ) / (50 : ℚ)⌉ + 3).toNat
    ∧ dlirThetaUnits (256, 256) (50, 50) = 162 := by
  have h := C2_dlir_fixed_grid 256 256 50 50 512 0 witnessLocW (fun _ _ => 0)
    (fun t _ _ => t) (by decide) (by decide)
  exact ⟨by decide, h.1, h.2⟩

/-- C3: a freshly constructed `TransformationRegressor` maps every input to
the all-zero output: the second `Linear` layer starts with zero weights and
bias, and `tanh 0 = 0`. -/
theorem C3_identity_start (theta_units input_dim : ℕ) (wInit : T2) (x : T2) (i j : ℕ) :
    transformationRegressorCall (mkTransformationRegressor theta_units input_dim wInit) x i j
      = 0 := by
  simp [transformationRegressorCall, mkTransformationRegressor, mkLinear, linearCall,
    addBias, matmulT2, tanhMap, Real.tanh_zero]

/-- C4: whenever `BSplineRegistration.call` returns a `theta`, its shape is
exactly `(1, 2, gridH, gridW)` for the grid geometry resolved at construction
time. -/
theorem C4_theta_shape (img_res : ℕ × ℕ) (factor : ℕ) (m : BSplineModel)
    (n H W c : ℕ) (ts : List ℕ)
    (hc : bsplineConstruct img_res factor = some m)
    (hcall : bsplineCallShape m n H W c = Except.ok ts) :
    ts = [1, 2, m.grid_res.1, m.grid_res.2] := by
  obtain ⟨hp, wp, g0, g1, rest, e1, e2, e3, hm⟩ := bsplineConstruct_some img_res factor m hc
  have hB : m.B = 1 := by rw [hm]
  rw [bsplineCallShape_ok m n H W c ts hcall, hB]

/-- C4 (witness): the model constructed at `img_res = (54, 414)`,
`factor = 100` successfully processes a `(1, 54, 414, 1)` moving image and its
`theta` has shape `(1, 2, 100, 1000) = (1, 2, gridH, gridW)`. -/
theorem C4_theta_shape_witness :
    bsplineConstruct (54, 414) 100 = some probeModel
    ∧ bsplineCallShape probeModel 1 54 414 1 = Except.ok [1, 2, 100, 1000]
    ∧ [1, 2, 100, 1000] = [1, 2, probeModel.grid_res.1, probeModel.grid_res.2] :=
  ⟨construct_54_414_100, rfl,
    C4_theta_shape (54, 414) 100 probeModel 1 54 414 1 [1, 2, 100, 1000]
      construct_54_414_100 rfl⟩

/-- C5 (counterexample): at `img_res = (18, 64)` the probed feature map has
spatial dimensions `(1, 12)`; because the constructor reads the probe's shape
through `numpy.squeeze`, the axis of extent 1 is dropped and the resolved grid
is `(12, 10)` (the 10 is the channel count), not the probed dimensions scaled
by `⌊√factor⌋ = 1`, i.e. not `(1, 12)`. -/
theorem C5_counterexample :
    locNetOutDim 18 = some 1
    ∧ locNetOutDim 64 = some 12
    ∧ (bsplineConstruct (18, 64) 1).map (fun m => m.grid_res) = some (12, 10)
    ∧ (1 * Nat.sqrt 1, 12 * Nat.sqrt 1) ≠ ((12 : ℕ), (10 : ℕ)) := by
  refine ⟨by decide, by decide, ?_, ?_⟩
  · rw [construct_18_64_1]
    rfl
  · rw [Nat.sqrt_one]
    decide

/-- C5 (amended): provided neither probed feature-map spatial dimension equals
1 (so that `numpy.squeeze` drops exactly the batch axis), a successful
`BSplineRegistration` construction resolves `grid_res` as the probed dimensions
each multiplied by the truncated square root of the factor. -/
theorem C5_amended_grid (H W factor : ℕ) (m : BSplineModel) (hp wp : ℕ)
    (hH : locNetOutDim H = some hp) (hW : locNetOutDim W = some wp)
    (h1 : hp ≠ 1) (h2 : wp ≠ 1)
    (hc : bsplineConstruct (H, W) factor = some m) :
    m.grid_res = (hp * Nat.sqrt factor, wp * Nat.sqrt factor) := by
  obtain ⟨hp', wp', g0, g1, rest, e1, e2, e3, hm⟩ := bsplineConstruct_some (H, W) factor m hc
  dsimp only at e1 e2
  rw [hH] at e1
  rw [hW] at e2
  have ehp : hp = hp' := Option.some.inj e1
  have ewp : wp = wp' := Option.some.inj e2
  subst ehp
  subst ewp
  rw [squeezeShape_of_ne_one hp wp h1 h2] at e3
  simp only [List.cons.injEq] at e3
  obtain ⟨hg0, hg1, -⟩ := e3
  rw [hm]
  dsimp only
  rw [← hg0, ← hg1]

/-- C5 (witness): the scenario `img_res = (64, 64)`, `factor = 4` — the probed
dims are `(12, 12)` and the final grid is `(24, 24)`, twice the probed
dimensions. -/
theorem C5_amended_witness :
    locNetOutDim 64 = some 12
    ∧ (12 : ℕ) ≠ 1
    ∧ bsplineConstruct (64, 64) 4 = some scaledModel
    ∧ scaledModel.grid_res = (12 * Nat.sqrt 4, 12 * Nat.sqrt 4)
    ∧ (12 * Nat.sqrt 4, 12 * Nat.sqrt 4) = ((24 : ℕ), (24 : ℕ)) := by
  refine ⟨by decide, by decide, construct_64_64_4,
    C5_amended_grid 64 64 4 scaledModel 12 12 (by decide) (by decide) (by decide) (by decide)
      construct_64_64_4, ?_⟩
  rw [sqrt_four_eq]

/-- C6: `Linear.call` computes `inputs·W + b`; with
`is_transformer_regressor = True` both the weight matrix and the bias are
zero-initialised and marked trainable, and with `False` the weight matrix
takes the random-normal draw and the bias is zero-initialised. -/
theorem C6_linear_layer (units input_dim : ℕ) (wInit : T2) (L : Linear) (x : T2)
    (i j a b : ℕ) :
    linearCall L x i j = (∑ k ∈ Finset.range L.inputDim, x i k * L.w k j) + L.b j
    ∧ (mkLinear units input_dim true wInit).w a b = 0
    ∧ (mkLinear units input_dim true wInit).b a = 0
    ∧ (mkLinear units input_dim true wInit).wTrainable = true
    ∧ (mkLinear units input_dim true wInit).bTrainable = true
    ∧ (mkLinear units input_dim false wInit).w = wInit
    ∧ (mkLinear units input_dim false wInit).b a = 0
    ∧ (mkLinear units input_dim false wInit).wTrainable = true
    ∧ (mkLinear units input_dim false wInit).bTrainable = true := by
  refine ⟨rfl, ?_, ?_, ?_, ?_, ?_, ?_, ?_, ?_⟩ <;> simp [mkLinear]

/-- C7: `DLIR.transform` equals the training path `DLIR.call` with the dropout
replaced by the identity and the input cast to float32 first; and `DLIR.call`
itself performs no cast, so a non-float32 input fails with a precision
mismatch. -/
theorem C7_transform_vs_call (m : DLIRModel) (t : TfTensor) (dropout : T2 → T2)
    (n h w c : ℕ) (d : T4) :
    dlirTransform m t = dlirCall m (fun desc => desc) (castTo32 t)
    ∧ dlirCall m dropout { dtype := DType.float64, n := n, h := h, w := w, c := c, data := d }
        = Except.error ShapeErr.dtypeMismatch := by
  constructor
  · rfl
  · simp [dlirCall, locNetApply]

/-- C8: `LocNet.call` is a pure function of its weights and input — two runs
on identical inputs under unchanged weights produce identical outputs. -/
theorem C8_locnet_deterministic (Wt : LocNetWeights) (x₁ x₂ : T4) (h : x₁ = x₂) :
    locNetCall Wt x₁ = locNetCall Wt x₂ := by
  rw [h]

/-- C8 (witness): two runs on a concrete constant image with concrete weights
agree. -/
theorem C8_locnet_deterministic_witness :
    witnessImage = witnessImage
    ∧ locNetCall witnessLocW witnessImage = locNetCall witnessLocW witnessImage :=
  ⟨rfl, C8_locnet_deterministic witnessLocW witnessImage witnessImage rfl⟩

/-- C9: `BSplineRegistration` builds its regressor with `input_dim = factor`
and feeds it the transposed, un-flattened feature map, so a forward pass can
only succeed when the feature-map width equals the factor; and whenever the
feature extraction itself succeeds (on a single-channel input) with a width
different from the factor, the pass fails precisely at the first matmul with a
dimension mismatch. -/
theorem C9_matmul_gate (img_res : ℕ × ℕ) (factor : ℕ) (m : BSplineModel) (n H W c : ℕ)
    (hc : bsplineConstruct img_res factor = some m) :
    m.transformer_regressor.input_dim = factor
    ∧ (∀ ts, bsplineCallShape m n H W c = Except.ok ts → locNetOutDim W = some factor)
    ∧ (∀ hp wp, locNetOutDim H = some hp → locNetOutDim W = some wp → c = 1 → wp ≠ factor →
        bsplineCallShape m n H W c = Except.error ShapeErr.matmulMismatch) := by
  obtain ⟨hp0, wp0, g0, g1, rest, e1, e2, e3, hm⟩ := bsplineConstruct_some img_res factor m hc
  have hid : m.transformer_regressor.input_dim = factor := by rw [hm]
  refine ⟨hid, ?_, ?_⟩
  · intro ts hts
    have hw := bsplineCallShape_ok_width m n H W c ts hts
    rw [hid] at hw
    exact hw
  · intro hp wp hH hW hc1 hwf
    subst hc1
    have hb : (wp != m.transformer_regressor.input_dim) = true := by
      refine bne_iff_ne.mpr ?_
      rw [hid]
      exact hwf
    unfold bsplineCallShape
    simp only [hH, hW, hb]
    rfl

/-- C9 (witness): for the model built at `img_res = (54, 414)`, `factor = 100`
the regressor `input_dim` is 100; a successful call has feature width 100; and
a `(1, 54, 420, 1)` input (feature width 101) fails at the first matmul. -/
theorem C9_matmul_gate_witness :
    probeModel.transformer_regressor.input_dim = 100
    ∧ locNetOutDim 414 = some 100
    ∧ bsplineCallShape probeModel 1 54 420 1 = Except.error ShapeErr.matmulMismatch := by
  have hA := C9_matmul_gate (54, 414) 100 probeModel 1 54 414 1 construct_54_414_100
  have hB := C9_matmul_gate (54, 414) 100 probeModel 1 54 420 1 construct_54_414_100
  exact ⟨hA.1, hA.2.1 [1, 2, 100, 1000] rfl,
    hB.2.2 10 101 (by decide) (by decide) rfl (by decide)⟩

/-- C10: every component of `TransformationRegressor.call`'s output lies
strictly inside `(−1, 1)` for every input and every weight assignment, because
the final operation is `tanh`; this bounds every control-point displacement
parameter either model variant emits. -/
theorem C10_output_bounded (R : TransformationRegressor) (x : T2) (i j : ℕ) :
    |transformationRegressorCall R x i j| < 1 :=
  tanh_abs_lt_one (linearCall R.linear2 (tanhMap (linearCall R.linear1 x)) i j)

end DLIR
